import Mathlib

/-
Verification of the TPRM DM-redirect bot (jeremeyh/tprm).

The development shallowly embeds the core of the program:
the allow-list normalizer, the availability (guard) store and the
/availability command state machine, the DM routing loop that decides
whether and as whom to auto-reply, and the OAuth redirect handlers.

JavaScript conventions are made explicit: optional string fields are
modelled as `Option String`, and JS truthiness (where `undefined`, `null`
and the empty string are falsy) is modelled by `jsTruthy`.
-/

namespace TPRM

/-- JS truthiness of an optional string value: `undefined` / `null`
(modelled as `none`) and the empty string are falsy; every other string
is truthy. -/
def jsTruthy : Option String → Bool
  | none => false
  | some s => !(s == "")

/- ===== Allow-list normalizer (src/unnamed/part_001 lines 35-38) ===== -/

/-- The character class `[A-Z0-9]` of the regex in `norm`
(the JS code removes every character matching `[^A-Z0-9]`):
code points 65..90 are the letters A..Z and 48..57 are the digits 0..9. -/
def keepAlnum (c : Char) : Bool :=
  decide ((65 ≤ c.toNat ∧ c.toNat ≤ 90) ∨ (48 ≤ c.toNat ∧ c.toNat ≤ 57))

/-- Removal of leading and trailing whitespace from a character list:
the semantics of JS String.prototype.trim on the characters involved. -/
def trimChars (cs : List Char) : List Char :=
  ((cs.dropWhile Char.isWhitespace).reverse.dropWhile Char.isWhitespace).reverse

/-- Embedding of src/unnamed/part_001 line 35:
const norm = (s = "") => s.trim().toUpperCase().replace(/[^A-Z0-9]/g, ""). -/
def norm (s : String) : String :=
  String.mk (((trimChars s.data).map Char.toUpper).filter keepAlnum)

/-- JS String.prototype.split(",") on a character list: splitting the empty
string yields one empty group, exactly as in JS. -/
def splitComma : List Char → List (List Char)
  | [] => [[]]
  | c :: cs =>
    if c = ',' then [] :: splitComma cs
    else
      match splitComma cs with
      | [] => [[c]]
      | g :: gs => (c :: g) :: gs

/-- Embedding of src/unnamed/part_001 lines 36-37: the normalized allow-list
TEAM_USER_ID_SET built from the raw comma-separated configuration value
(split on commas, each entry normalized, empty entries dropped).
JS Set membership coincides with list membership. -/
def teamUserIdSet (raw : String) : List String :=
  (((splitComma raw.data).map (fun cs => String.mk cs)).map norm).filter
    (fun s => !(s == ""))

/-- Embedding of src/unnamed/part_001 line 38:
const isTeamMember = (uid) => TEAM_USER_ID_SET.has(norm(uid)). -/
def isTeamMember (raw : String) (uid : String) : Bool :=
  (teamUserIdSet raw).contains (norm uid)

theorem toUpper_eq_self_of_keepAlnum (c : Char) (h : keepAlnum c = true) :
    c.toUpper = c := by
  have hp := of_decide_eq_true h
  unfold Char.toUpper
  have hn : ¬(c.toNat ≥ 97 ∧ c.toNat ≤ 122) := by omega
  simp [hn]

theorem not_ws_of_keepAlnum (c : Char) (h : keepAlnum c = true) :
    c.isWhitespace = false := by
  have hp := of_decide_eq_true h
  cases hws : c.isWhitespace with
  | false => rfl
  | true =>
    exfalso
    have h1 : (decide (c = ' ') || decide (c = '\t') || decide (c = '\r')
        || decide (c = '\n')) = true := hws
    simp only [Bool.or_eq_true, decide_eq_true_eq] at h1
    rcases h1 with ((h2 | h2) | h2) | h2 <;> subst h2 <;> exact absurd hp (by decide)

theorem dropWhile_eq_self_of_forall {p : Char → Bool} :
    ∀ (l : List Char), (∀ c ∈ l, p c = false) → l.dropWhile p = l
  | [], _ => rfl
  | c :: cs, h => by
    have hc : p c = false := h c (List.mem_cons_self c cs)
    simp [List.dropWhile_cons, hc]

theorem trimChars_eq_self (l : List Char)
    (h : ∀ c ∈ l, Char.isWhitespace c = false) : trimChars l = l := by
  unfold trimChars
  rw [dropWhile_eq_self_of_forall l h,
    dropWhile_eq_self_of_forall l.reverse
      (fun c hc => h c (List.mem_reverse.mp hc)),
    List.reverse_reverse]

theorem map_eq_self_of_forall {f : Char → Char} :
    ∀ (l : List Char), (∀ c ∈ l, f c = c) → l.map f = l
  | [], _ => rfl
  | c :: cs, h => by
    simp only [List.map_cons, h c (List.mem_cons_self c cs),
      map_eq_self_of_forall cs (fun x hx => h x (List.mem_cons_of_mem c hx))]

theorem filter_eq_self_of_forall {p : Char → Bool} :
    ∀ (l : List Char), (∀ c ∈ l, p c = true) → l.filter p = l
  | [], _ => rfl
  | c :: cs, h => by
    have hc : p c = true := h c (List.mem_cons_self c cs)
    simp [List.filter_cons, hc,
      filter_eq_self_of_forall cs (fun x hx => h x (List.mem_cons_of_mem c hx))]

/-- The normalizer is idempotent: a normalized identifier contains only
characters in `[A-Z0-9]`, which survive trimming, upper-casing and the
character filter unchanged. -/
theorem norm_idem (s : String) : norm (norm s) = norm s := by
  show norm (String.mk (((trimChars s.data).map Char.toUpper).filter keepAlnum))
      = norm s
  unfold norm
  have hk : ∀ c ∈ ((trimChars s.data).map Char.toUpper).filter keepAlnum,
      keepAlnum c = true := fun c hc => List.of_mem_filter hc
  have hw : ∀ c ∈ ((trimChars s.data).map Char.toUpper).filter keepAlnum,
      Char.isWhitespace c = false := fun c hc => not_ws_of_keepAlnum c (hk c hc)
  rw [show (String.mk (((trimChars s.data).map Char.toUpper).filter keepAlnum)).data
      = ((trimChars s.data).map Char.toUpper).filter keepAlnum from rfl]
  rw [trimChars_eq_self _ hw,
    map_eq_self_of_forall _ (fun c hc => toUpper_eq_self_of_keepAlnum c (hk c hc)),
    filter_eq_self_of_forall _ hk]

/-- C8: allow-list membership is decided by canonicalizing both the configured
comma-separated identifiers and the candidate id (trim, upper-case, strip
characters outside [A-Z0-9]) before set lookup, so membership of any
candidate id equals membership of its canonical form. -/
theorem isTeamMember_norm_invariant (raw x : String) :
    isTeamMember raw x = isTeamMember raw (norm x) := by
  unfold isTeamMember
  rw [norm_idem]

/- ===== DM routing engine (src/app.js lines 120-157) ===== -/

/-- The fields of the inbound message notification that the handler at
src/app.js lines 121-128 inspects. Optional JS fields are `Option String`. -/
structure MsgEvent where
  subtype : Option String
  channel_type : String
  thread_ts : Option String
  user : Option String
  channel : String
  ts : String
  bot_id : Option String
  deriving DecidableEq, Repr

/-- Configuration read by the routing engine when composing the reply text
(src/app.js lines 26-27 and 142-144). -/
structure RouteCfg where
  routeChannelId : String
  routeChannelName : String
  deriving DecidableEq, Repr

/-- The mutable stores and the delegated-API facts the routing loop reads:
the allow-list in iteration order (TEAM_USER_IDS, src/app.js line 24),
getUserMode (line 40), getUserToken (line 42), and the participant that
conversations.info resolves for a given delegated token and channel
(lines 136-137: info.channel.user, absent results modelled as `none`). -/
structure RouteEnv where
  teamUserIds : List String
  guardOn : String → Bool
  userToken : String → Option String
  partner : String → String → Option String

/-- An auto-reply posted by chat.postMessage (src/app.js line 151),
together with the candidate on whose behalf it is posted and the
delegated token used. -/
structure Reply where
  channel : String
  text : String
  thread_ts : String
  asUser : String
  token : String
  deriving DecidableEq, Repr

/-- src/app.js lines 142-144: the support-channel reference in the reply. -/
def routeText (cfg : RouteCfg) : String :=
  if cfg.routeChannelId ≠ "" then
    "<#" ++ cfg.routeChannelId ++ "|" ++ cfg.routeChannelName ++ ">"
  else cfg.routeChannelName

/-- src/app.js lines 146-149: the fixed redirect message body. -/
def autoReplyText (cfg : RouteCfg) : String :=
  "Hi there, thanks for reaching out. I am currently heads down in deep work mode and not checking messages in real time.\n"
    ++ "For quicker support, please post your question in " ++ routeText cfg
    ++ " so a teammate can jump in.\n"
    ++ "Otherwise, I will respond once I wrap up what I\x27m working on. Appreciate your patience!"

/-- The loop of src/app.js lines 130-153, iterating the allow-list:
skip a candidate whose guard is off (line 131) or without a usable
delegated token (lines 132-133) or whose resolved conversation participant
differs from the sender (lines 136-138); return —aborting the whole
iteration with no further posts— when the sender equals the candidate or
the event carries a bot id (line 140); otherwise post one threaded reply
as the candidate and break (lines 151-152). The returned list collects the
posted replies. -/
def routeDM (cfg : RouteCfg) (env : RouteEnv) (sender channel ts : String)
    (isBot : Bool) : List String → List Reply
  | [] => []
  | r :: rest =>
    if env.guardOn r = false then routeDM cfg env sender channel ts isBot rest
    else
      match env.userToken r with
      | none => routeDM cfg env sender channel ts isBot rest
      | some tok =>
        if tok = "" then routeDM cfg env sender channel ts isBot rest
        else if env.partner tok channel ≠ some sender then
          routeDM cfg env sender channel ts isBot rest
        else if sender = r ∨ isBot = true then []
        else [⟨channel, autoReplyText cfg, ts, r, tok⟩]

/-- The message-event handler of src/app.js lines 121-157: the applicability
filter of lines 123-128 (plain message, one-to-one DM, root message,
truthy sender id) followed by the routing loop over the allow-list. -/
def handleMessage (cfg : RouteCfg) (env : RouteEnv) (e : MsgEvent) :
    List Reply :=
  if jsTruthy e.subtype = true then []
  else if e.channel_type ≠ "im" then []
  else if jsTruthy e.thread_ts = true then []
  else if jsTruthy e.user = false then []
  else
    routeDM cfg env (e.user.getD "") e.channel e.ts (jsTruthy e.bot_id)
      env.teamUserIds

/-- The checks of src/app.js lines 131-138 that a candidate must pass before
the anti-loop guard and the post are reached: guard on, a usable delegated
token, and the resolved participant of the conversation equal to the
sender. -/
def passesChecks (env : RouteEnv) (sender channel r : String) : Bool :=
  env.guardOn r &&
    (match env.userToken r with
     | none => false
     | some tok => (!(tok == "")) && (env.partner tok channel == some sender))

/-- The participant resolved with a candidate delegated credential matches
the event sender (the check of src/app.js lines 136-138 in isolation). -/
def partnerMatches (env : RouteEnv) (channel sender r : String) : Bool :=
  match env.userToken r with
  | none => false
  | some tok => env.partner tok channel == some sender

theorem routeDM_skip_of_fails (cfg : RouteCfg) (env : RouteEnv)
    (sender channel ts : String) (isBot : Bool) (r : String) (rest : List String)
    (h : passesChecks env sender channel r = false) :
    routeDM cfg env sender channel ts isBot (r :: rest)
      = routeDM cfg env sender channel ts isBot rest := by
  unfold passesChecks at h
  conv_lhs => unfold routeDM
  by_cases hg : env.guardOn r = false
  · simp [hg]
  · rw [if_neg hg]
    have hg' : env.guardOn r = true := by
      revert hg
      cases env.guardOn r <;> simp
    rw [hg', Bool.true_and] at h
    cases htok : env.userToken r with
    | none => rfl
    | some tok =>
      rw [htok] at h
      dsimp only at h ⊢
      by_cases htok0 : tok = ""
      · simp [htok0]
      · rw [if_neg htok0]
        have hne : env.partner tok channel ≠ some sender := by
          intro hEq
          rw [hEq] at h
          simp [htok0] at h
        rw [if_pos hne]

theorem routeDM_length_le_one (cfg : RouteCfg) (env : RouteEnv)
    (sender channel ts : String) (isBot : Bool) :
    ∀ l : List String, (routeDM cfg env sender channel ts isBot l).length ≤ 1
  | [] => by simp [routeDM]
  | r :: rest => by
    unfold routeDM
    split
    · exact routeDM_length_le_one cfg env sender channel ts isBot rest
    · split
      · exact routeDM_length_le_one cfg env sender channel ts isBot rest
      · split
        · exact routeDM_length_le_one cfg env sender channel ts isBot rest
        · split
          · exact routeDM_length_le_one cfg env sender channel ts isBot rest
          · split
            · simp
            · simp

/-- Every reply produced by the routing loop was posted for a candidate of
the iterated list that passed every check, with the candidate token, into
the triggering channel, threaded on the triggering timestamp, and only for
a non-bot event with a sender different from the candidate. -/
theorem routeDM_mem (cfg : RouteCfg) (env : RouteEnv)
    (sender channel ts : String) (isBot : Bool) :
    ∀ l : List String, ∀ rep ∈ routeDM cfg env sender channel ts isBot l,
      env.guardOn rep.asUser = true ∧ env.userToken rep.asUser = some rep.token ∧
      rep.token ≠ "" ∧ env.partner rep.token channel = some sender ∧
      rep.asUser ≠ sender ∧ isBot = false ∧ rep.channel = channel ∧
      rep.thread_ts = ts ∧ rep.text = autoReplyText cfg ∧ rep.asUser ∈ l
  | [], rep, h => by simp [routeDM] at h
  | r :: rest, rep, h => by
    unfold routeDM at h
    split at h
    · have := routeDM_mem cfg env sender channel ts isBot rest rep h
      exact ⟨this.1, this.2.1, this.2.2.1, this.2.2.2.1, this.2.2.2.2.1,
        this.2.2.2.2.2.1, this.2.2.2.2.2.2.1, this.2.2.2.2.2.2.2.1,
        this.2.2.2.2.2.2.2.2.1, List.mem_cons_of_mem r this.2.2.2.2.2.2.2.2.2⟩
    · rename_i hg
      rw [Bool.not_eq_false] at hg
      split at h
      · have := routeDM_mem cfg env sender channel ts isBot rest rep h
        exact ⟨this.1, this.2.1, this.2.2.1, this.2.2.2.1, this.2.2.2.2.1,
          this.2.2.2.2.2.1, this.2.2.2.2.2.2.1, this.2.2.2.2.2.2.2.1,
          this.2.2.2.2.2.2.2.2.1, List.mem_cons_of_mem r this.2.2.2.2.2.2.2.2.2⟩
      · rename_i tok htok
        split at h
        · have := routeDM_mem cfg env sender channel ts isBot rest rep h
          exact ⟨this.1, this.2.1, this.2.2.1, this.2.2.2.1, this.2.2.2.2.1,
            this.2.2.2.2.2.1, this.2.2.2.2.2.2.1, this.2.2.2.2.2.2.2.1,
            this.2.2.2.2.2.2.2.2.1, List.mem_cons_of_mem r this.2.2.2.2.2.2.2.2.2⟩
        · split at h
          · have := routeDM_mem cfg env sender channel ts isBot rest rep h
            exact ⟨this.1, this.2.1, this.2.2.1, this.2.2.2.1, this.2.2.2.2.1,
              this.2.2.2.2.2.1, this.2.2.2.2.2.2.1, this.2.2.2.2.2.2.2.1,
              this.2.2.2.2.2.2.2.2.1, List.mem_cons_of_mem r this.2.2.2.2.2.2.2.2.2⟩
          · split at h
            · simp at h
            · rename_i htokne hpart hfree
              simp only [List.mem_singleton] at h
              subst h
              push_neg at hfree
              refine ⟨hg, htok, htokne, ?_, fun hEq => hfree.1 hEq.symm, ?_,
                rfl, rfl, rfl, List.mem_cons_self r rest⟩
              · simpa using hpart
              · simpa using hfree.2

theorem bool_eq_true_of_not_false {b : Bool} (h : ¬b = false) : b = true := by
  cases b
  · exact absurd rfl h
  · rfl

theorem bool_eq_false_of_not_true {b : Bool} (h : ¬b = true) : b = false := by
  cases b
  · rfl
  · exact absurd rfl h

theorem passesChecks_iff (env : RouteEnv) (sender channel r : String) :
    passesChecks env sender channel r = true ↔
      env.guardOn r = true ∧ ∃ tok, env.userToken r = some tok ∧ tok ≠ "" ∧
        env.partner tok channel = some sender := by
  unfold passesChecks
  cases hg : env.guardOn r <;> cases htok : env.userToken r <;>
    simp [hg, htok, Bool.and_eq_true, beq_iff_eq, and_comm]

theorem routeDM_cons_of_passes (cfg : RouteCfg) (env : RouteEnv)
    (sender channel ts : String) (isBot : Bool) (r : String) (rest : List String)
    (tok : String) (hg : env.guardOn r = true) (htok : env.userToken r = some tok)
    (h0 : tok ≠ "") (hp : env.partner tok channel = some sender) :
    routeDM cfg env sender channel ts isBot (r :: rest)
      = if sender = r ∨ isBot = true then []
        else [⟨channel, autoReplyText cfg, ts, r, tok⟩] := by
  conv_lhs => unfold routeDM
  rw [if_neg (by simp [hg]), htok]
  dsimp only
  rw [if_neg h0, if_neg (fun hn => hn hp)]

/-- A bot-authored event never yields a post: every path that would post
passes through the return at src/app.js line 140 first. -/
theorem routeDM_bot (cfg : RouteCfg) (env : RouteEnv) (sender channel ts : String)
    (l : List String) : routeDM cfg env sender channel ts true l = [] := by
  cases hres : routeDM cfg env sender channel ts true l with
  | nil => rfl
  | cons a t =>
    exfalso
    have hmem : a ∈ routeDM cfg env sender channel ts true l := by
      rw [hres]
      exact List.mem_cons_self a t
    have hbot := (routeDM_mem cfg env sender channel ts true l a hmem).2.2.2.2.2.1
    exact absurd hbot (by decide)

/-- A posted reply belongs to the first candidate, in iteration order, that
passes the guard, token and participant checks; every earlier candidate
fails one of them. -/
theorem routeDM_first (cfg : RouteCfg) (env : RouteEnv)
    (sender channel ts : String) (isBot : Bool) :
    ∀ l : List String, ∀ rep ∈ routeDM cfg env sender channel ts isBot l,
      ∃ l1 l2, l = l1 ++ rep.asUser :: l2 ∧
        (∀ r ∈ l1, passesChecks env sender channel r = false) ∧
        passesChecks env sender channel rep.asUser = true
  | [], rep, h => by simp [routeDM] at h
  | r :: rest, rep, h => by
    by_cases hpc : passesChecks env sender channel r = true
    · obtain ⟨hg, tok, htok, h0, hp⟩ := (passesChecks_iff env sender channel r).mp hpc
      rw [routeDM_cons_of_passes cfg env sender channel ts isBot r rest tok
        hg htok h0 hp] at h
      split at h
      · simp at h
      · simp only [List.mem_singleton] at h
        subst h
        exact ⟨[], rest, rfl, by simp, hpc⟩
    · have hskip := routeDM_skip_of_fails cfg env sender channel ts isBot r rest
        (bool_eq_false_of_not_true hpc)
      rw [hskip] at h
      obtain ⟨l1, l2, heq, hall, hpass⟩ :=
        routeDM_first cfg env sender channel ts isBot rest rep h
      refine ⟨r :: l1, l2, by rw [List.cons_append, heq], ?_, hpass⟩
      intro x hx
      rcases List.mem_cons.mp hx with hx | hx
      · rw [hx]
        exact bool_eq_false_of_not_true hpc
      · exact hall x hx

/-- The anti-loop guard aborts the whole iteration: once the loop reaches a
candidate that passes the guard, token and participant checks, a sender
equal to that candidate or a bot-authored event returns with no reply and
no later candidate is considered. -/
theorem routeDM_abort (cfg : RouteCfg) (env : RouteEnv)
    (sender channel ts : String) (isBot : Bool) :
    ∀ (l1 : List String) (r : String) (l2 : List String),
      (∀ x ∈ l1, passesChecks env sender channel x = false) →
      passesChecks env sender channel r = true →
      (sender = r ∨ isBot = true) →
      routeDM cfg env sender channel ts isBot (l1 ++ r :: l2) = []
  | [], r, l2, _, hpass, hcond => by
    obtain ⟨hg, tok, htok, h0, hp⟩ := (passesChecks_iff env sender channel r).mp hpass
    rw [List.nil_append,
      routeDM_cons_of_passes cfg env sender channel ts isBot r l2 tok hg htok h0 hp,
      if_pos hcond]
  | x :: l1, r, l2, hall, hpass, hcond => by
    rw [List.cons_append,
      routeDM_skip_of_fails cfg env sender channel ts isBot x _
        (hall x (List.mem_cons_self x l1))]
    exact routeDM_abort cfg env sender channel ts isBot l1 r l2
      (fun y hy => hall y (List.mem_cons_of_mem x hy)) hpass hcond

/-- Any reply of the handler arises from the routing loop after the event
passed the applicability filter. -/
theorem handleMessage_mem (cfg : RouteCfg) (env : RouteEnv) (e : MsgEvent)
    (rep : Reply) (h : rep ∈ handleMessage cfg env e) :
    jsTruthy e.subtype = false ∧ e.channel_type = "im" ∧
    jsTruthy e.thread_ts = false ∧ jsTruthy e.user = true ∧
    rep ∈ routeDM cfg env (e.user.getD "") e.channel e.ts (jsTruthy e.bot_id)
      env.teamUserIds := by
  unfold handleMessage at h
  split at h
  · exact absurd h (by simp)
  · split at h
    · exact absurd h (by simp)
    · split at h
      · exact absurd h (by simp)
      · split at h
        · exact absurd h (by simp)
        · rename_i h1 h2 h3 h4
          exact ⟨bool_eq_false_of_not_true h1, not_not.mp h2,
            bool_eq_false_of_not_true h3, bool_eq_true_of_not_false h4, h⟩

/- ===== Fixtures for concrete evaluations ===== -/

/-- A sample routing configuration. -/
def cfgW : RouteCfg := ⟨"C123", "#tprm-questions"⟩

/-- A sample environment: candidates UB then UA, both guarded with stored
tokens; in channel D1 the participant resolved with the token of UA is U2,
the one resolved with the token of UB is U3. -/
def envW : RouteEnv where
  teamUserIds := ["UB", "UA"]
  guardOn := fun u => u == "UB" || u == "UA"
  userToken := fun u =>
    if u = "UB" then some "xoxp-b" else if u = "UA" then some "xoxp-a" else none
  partner := fun tok ch =>
    if tok = "xoxp-a" && ch = "D1" then some "U2"
    else if tok = "xoxp-b" && ch = "D1" then some "U3" else none

/-- A plain root DM from U2 in channel D1. -/
def eW : MsgEvent := ⟨none, "im", none, some "U2", "D1", "170.1", none⟩

/-- The reply the handler posts for `eW` in `envW`. -/
def repW : Reply := ⟨"D1", autoReplyText cfgW, "170.1", "UA", "xoxp-a"⟩

/-- An environment whose only candidate US2 is guarded, holds a token, and
is resolved as the participant of its own channel D3 (a self-DM). -/
def envSelf : RouteEnv where
  teamUserIds := ["US2"]
  guardOn := fun u => u == "US2"
  userToken := fun u => if u = "US2" then some "xoxp-s2" else none
  partner := fun tok ch =>
    if tok = "xoxp-s2" && ch = "D3" then some "US2" else none

/-- A plain root DM authored by US2 in its self-DM channel D3. -/
def eSelf : MsgEvent := ⟨none, "im", none, some "US2", "D3", "172.0", none⟩

/-- A bot-authored plain root DM in channel D1. -/
def eBot : MsgEvent := ⟨none, "im", none, some "U9", "D1", "173.0", some "B1"⟩

/-- The environment of the C1 counterexample: the sender US is itself a
guarded candidate with a stored token, iterated first; the DM channel D2
is the conversation between US and UA, so the participant resolved with
the token of US is UA and the one resolved with the token of UA is US. -/
def envC1 : RouteEnv where
  teamUserIds := ["US", "UA"]
  guardOn := fun u => u == "US" || u == "UA"
  userToken := fun u =>
    if u = "US" then some "xoxp-s" else if u = "UA" then some "xoxp-a2" else none
  partner := fun tok ch =>
    if tok = "xoxp-s" && ch = "D2" then some "UA"
    else if tok = "xoxp-a2" && ch = "D2" then some "US" else none

/-- A plain root DM authored by the guarded member US in channel D2. -/
def eC1 : MsgEvent := ⟨none, "im", none, some "US", "D2", "171.2", none⟩

/- ===== Claim theorems: routing ===== -/

/-- C6: for every inbound notification that carries a (JS-truthy) subtype,
or whose conversation is not a one-to-one direct message, or that carries
a non-empty thread timestamp, or that carries no (JS-truthy) sender id,
no auto-reply is produced, regardless of guard states or stored
credentials (src/app.js lines 123-128). -/
theorem applicability_filter_blocks_reply (cfg : RouteCfg) (env : RouteEnv)
    (e : MsgEvent)
    (h : jsTruthy e.subtype = true ∨ e.channel_type ≠ "im" ∨
      jsTruthy e.thread_ts = true ∨ jsTruthy e.user = false) :
    handleMessage cfg env e = [] := by
  unfold handleMessage
  split_ifs with h1 h2 h3 h4
  · rfl
  · rfl
  · rfl
  · rfl
  · rcases h with h | h | h | h
    · exact absurd h h1
    · exact absurd h h2
    · exact absurd h h3
    · exact absurd h h4

/-- Witness for C6: a threaded message (non-empty thread timestamp) in an
environment where UA is guarded with a token produces no reply. -/
theorem applicability_filter_blocks_reply_witness :
    handleMessage cfgW envW ⟨none, "im", some "170.0", some "U2", "D1", "170.1", none⟩ = [] :=
  applicability_filter_blocks_reply cfgW envW
    ⟨none, "im", some "170.0", some "U2", "D1", "170.1", none⟩
    (Or.inr (Or.inr (Or.inl (by decide))))

/-- C3: every inbound notification yields at most one auto-reply; a posted
reply goes into the same conversation, is threaded on the triggering
timestamp, carries the fixed redirect body, is posted with the delegated
token of its candidate, and that candidate is the first of the allow-list
iteration to pass all the checks (all earlier candidates fail the
guard/token/participant checks, and the posting candidate additionally
passes the anti-loop check). -/
theorem at_most_one_threaded_reply_first_passing (cfg : RouteCfg)
    (env : RouteEnv) (e : MsgEvent) :
    (handleMessage cfg env e).length ≤ 1 ∧
    ∀ rep ∈ handleMessage cfg env e,
      rep.channel = e.channel ∧ rep.thread_ts = e.ts ∧
      rep.text = autoReplyText cfg ∧
      env.userToken rep.asUser = some rep.token ∧
      rep.asUser ≠ e.user.getD "" ∧ jsTruthy e.bot_id = false ∧
      passesChecks env (e.user.getD "") e.channel rep.asUser = true ∧
      ∃ l1 l2, env.teamUserIds = l1 ++ rep.asUser :: l2 ∧
        ∀ r ∈ l1, passesChecks env (e.user.getD "") e.channel r = false := by
  constructor
  · unfold handleMessage
    split_ifs
    · simp
    · simp
    · simp
    · simp
    · exact routeDM_length_le_one cfg env (e.user.getD "") e.channel e.ts
        (jsTruthy e.bot_id) env.teamUserIds
  · intro rep hrep
    obtain ⟨_, _, _, _, hmem⟩ := handleMessage_mem cfg env e rep hrep
    have hfacts := routeDM_mem cfg env (e.user.getD "") e.channel e.ts
      (jsTruthy e.bot_id) env.teamUserIds rep hmem
    obtain ⟨l1, l2, heq, hall, hpass⟩ := routeDM_first cfg env (e.user.getD "")
      e.channel e.ts (jsTruthy e.bot_id) env.teamUserIds rep hmem
    exact ⟨hfacts.2.2.2.2.2.2.1, hfacts.2.2.2.2.2.2.2.1,
      hfacts.2.2.2.2.2.2.2.2.1, hfacts.2.1, hfacts.2.2.2.2.1,
      hfacts.2.2.2.2.2.1, hpass, l1, l2, heq, hall⟩

set_option maxRecDepth 8192 in
/-- Witness for C3: in `envW` the event `eW` yields exactly the reply
`repW`, posted as UA into D1, threaded on the inbound timestamp. -/
theorem at_most_one_threaded_reply_first_passing_witness :
    (handleMessage cfgW envW eW).length ≤ 1 ∧ repW ∈ handleMessage cfgW envW eW ∧
    repW.channel = eW.channel ∧ repW.thread_ts = eW.ts ∧
    repW.text = autoReplyText cfgW :=
  have hmem : repW ∈ handleMessage cfgW envW eW := by decide
  ⟨(at_most_one_threaded_reply_first_passing cfgW envW eW).1, hmem,
    ((at_most_one_threaded_reply_first_passing cfgW envW eW).2 repW hmem).1,
    ((at_most_one_threaded_reply_first_passing cfgW envW eW).2 repW hmem).2.1,
    ((at_most_one_threaded_reply_first_passing cfgW envW eW).2 repW hmem).2.2.1⟩

/-- C2: if the resolved conversation participant matches the sender only for
candidate A, every posted reply is posted as A with the delegated token of
A, never as any other candidate, for every iteration order of the
allow-list (the order is existentially free in `env.teamUserIds`). -/
theorem reply_uses_matching_candidate_credential (cfg : RouteCfg)
    (env : RouteEnv) (e : MsgEvent) (s A : String)
    (hs : e.user = some s)
    (honly : ∀ r ∈ env.teamUserIds, r ≠ A → partnerMatches env e.channel s r = false) :
    ∀ rep ∈ handleMessage cfg env e,
      rep.asUser = A ∧ env.userToken A = some rep.token := by
  intro rep hrep
  obtain ⟨_, _, _, _, hmem⟩ := handleMessage_mem cfg env e rep hrep
  have hfacts := routeDM_mem cfg env (e.user.getD "") e.channel e.ts
    (jsTruthy e.bot_id) env.teamUserIds rep hmem
  have hsender : e.user.getD "" = s := by rw [hs]; rfl
  rw [hsender] at hfacts
  have hpm : partnerMatches env e.channel s rep.asUser = true := by
    unfold partnerMatches
    rw [hfacts.2.1]
    simp [hfacts.2.2.2.1]
  have hA : rep.asUser = A := by
    by_contra hne
    have hcontra := honly rep.asUser hfacts.2.2.2.2.2.2.2.2.2 hne
    rw [hpm] at hcontra
    exact absurd hcontra (by decide)
  refine ⟨hA, ?_⟩
  rw [← hA]
  exact hfacts.2.1

set_option maxRecDepth 8192 in
/-- Witness for C2: in `envW` candidate UB is iterated before UA, but the
participant matches the sender U2 only for UA; the reply is posted as UA
with the token of UA. -/
theorem reply_uses_matching_candidate_credential_witness :
    (∀ r ∈ envW.teamUserIds, r ≠ "UA" → partnerMatches envW eW.channel "U2" r = false) ∧
    repW ∈ handleMessage cfgW envW eW ∧
    repW.asUser = "UA" ∧ envW.userToken "UA" = some repW.token :=
  have hmem : repW ∈ handleMessage cfgW envW eW := by decide
  ⟨by decide, hmem,
    reply_uses_matching_candidate_credential cfgW envW eW "U2" "UA" rfl
      (by decide) repW hmem⟩

/-- C1 counterexample: the inbound DM `eC1` passes the applicability filter,
its sender US is a guarded candidate of the allow-list (guard on, token
stored) and is iterated and evaluated first, the event is not
bot-authored — yet the engine does not stop: it posts an auto-reply (as
UA). The anti-loop guard of src/app.js line 140 sits after the
participant check of line 138, so a candidate equal to the sender whose
resolved participant differs from the sender is skipped, the iteration
advances, and a reply is still produced. -/
theorem anti_loop_not_global_counterexample :
    (jsTruthy eC1.subtype = false ∧ eC1.channel_type = "im" ∧
      jsTruthy eC1.thread_ts = false ∧ eC1.user = some "US" ∧
      jsTruthy eC1.bot_id = false) ∧
    "US" ∈ envC1.teamUserIds ∧ envC1.guardOn "US" = true ∧
    envC1.userToken "US" = some "xoxp-s" ∧
    (handleMessage cfgW envC1 eC1).length = 1 ∧
    ∀ rep ∈ handleMessage cfgW envC1 eC1, rep.asUser = "UA" := by
  decide

/-- C1 (amended): (1) a bot-authored event never produces any auto-reply;
(2) no reply is ever posted on behalf of the sender; (3) the abort is
total once reached: if the loop reaches a candidate that passes the
guard, token and participant checks (every earlier candidate having
failed one of those checks) and the sender equals that candidate or the
event is bot-authored, the engine produces no auto-reply at all and the
iteration stops. -/
theorem anti_loop_abort_after_participant_match :
    (∀ (cfg : RouteCfg) (env : RouteEnv) (e : MsgEvent),
      jsTruthy e.bot_id = true → handleMessage cfg env e = []) ∧
    (∀ (cfg : RouteCfg) (env : RouteEnv) (e : MsgEvent) (rep : Reply) (s : String),
      rep ∈ handleMessage cfg env e → e.user = some s → rep.asUser ≠ s) ∧
    (∀ (cfg : RouteCfg) (env : RouteEnv) (e : MsgEvent)
      (l1 : List String) (r : String) (l2 : List String),
      env.teamUserIds = l1 ++ r :: l2 →
      (∀ x ∈ l1, passesChecks env (e.user.getD "") e.channel x = false) →
      passesChecks env (e.user.getD "") e.channel r = true →
      (e.user.getD "" = r ∨ jsTruthy e.bot_id = true) →
      handleMessage cfg env e = []) := by
  refine ⟨?_, ?_, ?_⟩
  · intro cfg env e hbot
    unfold handleMessage
    split_ifs
    · rfl
    · rfl
    · rfl
    · rfl
    · rw [hbot]
      exact routeDM_bot cfg env (e.user.getD "") e.channel e.ts env.teamUserIds
  · intro cfg env e rep s hrep hs
    obtain ⟨_, _, _, _, hmem⟩ := handleMessage_mem cfg env e rep hrep
    have hfacts := routeDM_mem cfg env (e.user.getD "") e.channel e.ts
      (jsTruthy e.bot_id) env.teamUserIds rep hmem
    have hsender : e.user.getD "" = s := by rw [hs]; rfl
    rw [hsender] at hfacts
    exact hfacts.2.2.2.2.1
  · intro cfg env e l1 r l2 hteam hall hpass hcond
    unfold handleMessage
    split_ifs
    · rfl
    · rfl
    · rfl
    · rfl
    · rw [hteam]
      exact routeDM_abort cfg env (e.user.getD "") e.channel e.ts
        (jsTruthy e.bot_id) l1 r l2 hall hpass hcond

/-- Witness for the amended C1: a self-DM whose single guarded candidate
passes all checks and equals the sender yields no reply, and a
bot-authored DM yields no reply. -/
theorem anti_loop_abort_after_participant_match_witness :
    handleMessage cfgW envSelf eSelf = [] ∧ handleMessage cfgW envW eBot = [] :=
  ⟨anti_loop_abort_after_participant_match.2.2 cfgW envSelf eSelf [] "US2" []
      rfl (by decide) (by decide) (Or.inl rfl),
    anti_loop_abort_after_participant_match.1 cfgW envW eBot (by decide)⟩

/- ===== Availability store and /availability command (src/app.js 36-118) ===== -/

/-- The availability store: one record per member id holding the guard flag
(state.users, src/app.js line 37; the updatedAt timestamp is not
modelled). Absence of a record means the guard is off. -/
abbrev AvailStore := List (String × Bool)

/-- src/app.js line 40: getUserMode. -/
def getUserMode (st : AvailStore) (u : String) : Bool :=
  match st.find? (fun p => p.1 == u) with
  | some p => p.2
  | none => false

/-- src/app.js line 39: setUserMode overwrites the record of the member
(JS object key assignment). -/
def setUserMode (st : AvailStore) (u : String) (v : Bool) : AvailStore :=
  (u, v) :: st.filter (fun p => !(p.1 == u))

/-- src/app.js line 81: String((command.text or "").trim().toLowerCase()). -/
def canonArg (text : Option String) : String :=
  String.mk ((trimChars (text.getD "").data).map Char.toLower)

def notOnListMsg (teamName : String) : String :=
  "You are not on the managed " ++ teamName ++ " list."

def guardOnMsg : String := "Heads-down is *ON*. I will auto-reply in DMs."

def guardOffMsg : String := "Heads-down is *OFF*. I will not auto-reply in DMs."

def statusMsg (b : Bool) : String :=
  "Your heads-down is *" ++ (if b then "ON" else "OFF") ++ "*."

def toggledMsg (b : Bool) : String :=
  "Toggled. Heads-down is now *" ++ (if b then "ON" else "OFF") ++ "*."

/-- The outcome of one /availability invocation: the availability store
afterwards and the text of the ephemeral response. -/
structure CmdResult where
  st : AvailStore
  reply : String
  deriving DecidableEq, Repr

/-- The /availability command handler of src/app.js lines 73-118:
non-members are rejected without mutation; on/enable/start force the guard
on; off/disable/stop force it off; status only reports; anything else
toggles. The best-effort cosmetic profile update (applyStatus) touches no
store and is external, so it is not modelled. -/
def availabilityCommand (teamIds : List String) (teamName : String)
    (st : AvailStore) (uid : String) (text : Option String) : CmdResult :=
  if teamIds.contains uid = false then ⟨st, notOnListMsg teamName⟩
  else if canonArg text = "on" ∨ canonArg text = "enable" ∨ canonArg text = "start" then
    ⟨setUserMode st uid true, guardOnMsg⟩
  else if canonArg text = "off" ∨ canonArg text = "disable" ∨ canonArg text = "stop" then
    ⟨setUserMode st uid false, guardOffMsg⟩
  else if canonArg text = "status" then ⟨st, statusMsg (getUserMode st uid)⟩
  else ⟨setUserMode st uid (!(getUserMode st uid)),
    toggledMsg (!(getUserMode st uid))⟩

theorem getUserMode_setUserMode_self (st : AvailStore) (u : String) (v : Bool) :
    getUserMode (setUserMode st u v) u = v := by
  unfold getUserMode setUserMode
  rw [List.find?_cons_of_pos _ (by simp)]

/-- C7: for every allow-listed member and every prior store, the
/availability command (argument canonicalized by trimming and
lower-casing) forces the guard on for on/enable/start, forces it off for
off/disable/stop, leaves the whole store untouched while reporting the
current state for status, and toggles the guard flag for any other
argument, the empty one included. -/
theorem availability_command_state_machine (teamIds : List String)
    (teamName : String) (st : AvailStore) (uid : String) (text : Option String)
    (hmem : teamIds.contains uid = true) :
    ((canonArg text = "on" ∨ canonArg text = "enable" ∨ canonArg text = "start") →
      getUserMode (availabilityCommand teamIds teamName st uid text).st uid = true) ∧
    ((canonArg text = "off" ∨ canonArg text = "disable" ∨ canonArg text = "stop") →
      getUserMode (availabilityCommand teamIds teamName st uid text).st uid = false) ∧
    (canonArg text = "status" →
      (availabilityCommand teamIds teamName st uid text).st = st ∧
      (availabilityCommand teamIds teamName st uid text).reply
        = statusMsg (getUserMode st uid)) ∧
    (¬(canonArg text = "on" ∨ canonArg text = "enable" ∨ canonArg text = "start") →
      ¬(canonArg text = "off" ∨ canonArg text = "disable" ∨ canonArg text = "stop") →
      canonArg text ≠ "status" →
      getUserMode (availabilityCommand teamIds teamName st uid text).st uid
        = !(getUserMode st uid)) := by
  have hni : ¬(teamIds.contains uid = false) := by
    rw [hmem]
    decide
  refine ⟨?_, ?_, ?_, ?_⟩
  · intro h
    unfold availabilityCommand
    rw [if_neg hni, if_pos h]
    exact getUserMode_setUserMode_self st uid true
  · intro h
    have hno : ¬(canonArg text = "on" ∨ canonArg text = "enable" ∨
        canonArg text = "start") := by
      rcases h with h | h | h <;> rw [h] <;> decide
    unfold availabilityCommand
    rw [if_neg hni, if_neg hno, if_pos h]
    exact getUserMode_setUserMode_self st uid false
  · intro h
    have hno : ¬(canonArg text = "on" ∨ canonArg text = "enable" ∨
        canonArg text = "start") := by rw [h]; decide
    have hnf : ¬(canonArg text = "off" ∨ canonArg text = "disable" ∨
        canonArg text = "stop") := by rw [h]; decide
    unfold availabilityCommand
    rw [if_neg hni, if_neg hno, if_neg hnf, if_pos h]
    exact ⟨rfl, rfl⟩
  · intro h1 h2 h3
    unfold availabilityCommand
    rw [if_neg hni, if_neg h1, if_neg h2, if_neg h3]
    exact getUserMode_setUserMode_self st uid _

/-- Witness for C7: the member U1 of a one-member allow-list runs the
command with the raw argument " ON " (case and spacing artifacts); the
canonical argument is on and the guard is forced on. -/
theorem availability_command_state_machine_witness :
    (["U1"].contains "U1" = true) ∧ canonArg (some " ON ") = "on" ∧
    getUserMode (availabilityCommand ["U1"] "Team" [] "U1" (some " ON ")).st "U1"
      = true :=
  ⟨by decide, by decide,
    (availability_command_state_machine ["U1"] "Team" [] "U1" (some " ON ")
      (by decide)).1 (Or.inl (by decide))⟩

/-- C9: invoking the toggle (an argument that is none of the force-on,
force-off and status arguments) twice in succession returns the guard flag
of the member to its original value, from any prior store. -/
theorem double_toggle_restores_guard (teamIds : List String) (teamName : String)
    (st : AvailStore) (uid : String) (text : Option String)
    (hmem : teamIds.contains uid = true)
    (h1 : ¬(canonArg text = "on" ∨ canonArg text = "enable" ∨ canonArg text = "start"))
    (h2 : ¬(canonArg text = "off" ∨ canonArg text = "disable" ∨ canonArg text = "stop"))
    (h3 : canonArg text ≠ "status") :
    getUserMode (availabilityCommand teamIds teamName
        (availabilityCommand teamIds teamName st uid text).st uid text).st uid
      = getUserMode st uid := by
  have hni : ¬(teamIds.contains uid = false) := by
    rw [hmem]
    decide
  unfold availabilityCommand
  simp only [if_neg hni, if_neg h1, if_neg h2, if_neg h3]
  rw [getUserMode_setUserMode_self, getUserMode_setUserMode_self, Bool.not_not]

/-- Witness for C9: toggling twice with an empty argument from the empty
store leaves the guard of U1 off, its original value. -/
theorem double_toggle_restores_guard_witness :
    getUserMode (availabilityCommand ["U1"] "Team"
        (availabilityCommand ["U1"] "Team" [] "U1" none).st "U1" none).st "U1"
      = getUserMode ([] : AvailStore) "U1" :=
  double_toggle_restores_guard ["U1"] "Team" [] "U1" none
    (by decide) (by decide) (by decide) (by decide)

/- ===== OAuth redirect handlers (src/app.js 177-203; part_001 581-607) ===== -/

/-- A stored delegated credential record (users.by_user, src/app.js
line 38; updatedAt not modelled). -/
structure CredRec where
  token : String
  team_id : Option String
  enterprise_id : Option String
  deriving DecidableEq, Repr

/-- The credential store keyed by member id. -/
abbrev CredStore := List (String × CredRec)

/-- src/app.js line 41: saveUserToken overwrites the record of the member. -/
def saveUserToken (st : CredStore) (u : String) (t : String)
    (team ent : Option String) : CredStore :=
  (u, ⟨t, team, ent⟩) :: st.filter (fun p => !(p.1 == u))

/-- src/app.js line 42: getUserToken over the credential store
(an empty stored token is coerced to null by the JS disjunction). -/
def getStoredToken (st : CredStore) (u : String) : Option String :=
  match st.find? (fun p => p.1 == u) with
  | some p => if p.2.token = "" then none else some p.2.token
  | none => none

/-- OAuth client configuration; empty strings model missing (falsy) env
values. -/
structure OAuthCfg where
  clientId : String
  clientSecret : String
  stateSecret : String
  deriving DecidableEq, Repr

/-- The outcome of the upstream oauth.v2.access call on a given code:
`err` models an upstream rejection (a thrown SDK error), `ok` carries the
response fields the handlers read (authed_user.id,
authed_user.access_token, team.id, enterprise.id), each possibly absent. -/
inductive Exchange where
  | err : Exchange
  | ok (authedUserId accessToken teamId enterpriseId : Option String) : Exchange
  deriving DecidableEq, Repr

/-- The query parameters of an OAuth redirect request. -/
structure OAuthReq where
  code : Option String
  state : Option String
  deriving DecidableEq, Repr

/-- The observable outcome of a redirect handler: HTTP status, whether the
upstream provider was contacted, the response body, and the credential
store after the request. -/
structure OAuthResult where
  status : Nat
  calledUpstream : Bool
  body : String
  store : CredStore
  deriving DecidableEq, Repr

def missingCodeBody : String := "Missing ?code"

def missingEnvBody : String := "Missing OAuth env"

def oauthFailedBody : String := "OAuth failed. Check logs."

def noUserTokenBody : String := "<h3>OAuth complete, but no user token.</h3>"

def successBody (u : String) : String :=
  "<h3>Success!</h3><p>Saved user token for " ++ u ++ ".</p>"

/-- The OAuth redirect handler of src/app.js lines 177-203. The state query
parameter is never read: the upstream exchange is issued whenever a code
and the client credentials are present. The catch of lines 199-202 is the
`err` branch. -/
def oauthRedirectMain (cfg : OAuthCfg) (ex : String → Exchange)
    (req : OAuthReq) (st : CredStore) : OAuthResult :=
  if jsTruthy req.code = false then ⟨400, false, missingCodeBody, st⟩
  else if cfg.clientId = "" ∨ cfg.clientSecret = "" then
    ⟨500, false, missingEnvBody, st⟩
  else
    match ex (req.code.getD "") with
    | .err => ⟨500, true, oauthFailedBody, st⟩
    | .ok uid utok team ent =>
      if jsTruthy uid = false ∨ jsTruthy utok = false then
        ⟨200, true, noUserTokenBody, st⟩
      else
        ⟨200, true, successBody (uid.getD ""),
          saveUserToken st (uid.getD "") (utok.getD "") team ent⟩

def invalidStateBody : String := "Invalid state"

def missingClientBody : String := "Missing CLIENT_ID/CLIENT_SECRET"

def successBodyV (uid : Option String) : String :=
  "<h1>Success!</h1><p>Saved user token for "
    ++ (match uid with | some u => u | none => "undefined")
    ++ ". You can close this window.</p>"

/-- The OAuth redirect handler variant of src/unnamed/part_001 lines
581-607: it rejects a state parameter different from the configured state
secret with 400 before anything beyond the code check, saves only when
both authorized-user fields are present, and answers with the success body
either way. -/
def oauthRedirectValidated (cfg : OAuthCfg) (ex : String → Exchange)
    (req : OAuthReq) (st : CredStore) : OAuthResult :=
  if jsTruthy req.code = false then ⟨400, false, missingCodeBody, st⟩
  else if req.state ≠ some cfg.stateSecret then ⟨400, false, invalidStateBody, st⟩
  else if cfg.clientId = "" ∨ cfg.clientSecret = "" then
    ⟨500, false, missingClientBody, st⟩
  else
    match ex (req.code.getD "") with
    | .err => ⟨500, true, oauthFailedBody, st⟩
    | .ok uid utok team ent =>
      if jsTruthy uid = true ∧ jsTruthy utok = true then
        ⟨200, true, successBodyV uid,
          saveUserToken st (uid.getD "") (utok.getD "") team ent⟩
      else ⟨200, true, successBodyV uid, st⟩

/-- The validating variant rejects a mismatched state before contacting the
provider, for every request and store. -/
theorem oauthRedirectValidated_rejects_bad_state (cfg : OAuthCfg)
    (ex : String → Exchange) (req : OAuthReq) (st : CredStore)
    (h : req.state ≠ some cfg.stateSecret) :
    (oauthRedirectValidated cfg ex req st).calledUpstream = false ∧
    (oauthRedirectValidated cfg ex req st).store = st := by
  unfold oauthRedirectValidated
  by_cases h0 : jsTruthy req.code = false
  · rw [if_pos h0]
    exact ⟨rfl, rfl⟩
  · rw [if_neg h0, if_pos h]
    exact ⟨rfl, rfl⟩

theorem getStoredToken_saveUserToken_self (st : CredStore) (u t : String)
    (team ent : Option String) :
    getStoredToken (saveUserToken st u t team ent) u
      = if t = "" then none else some t := by
  unfold getStoredToken saveUserToken
  rw [List.find?_cons_of_pos _ (by simp)]

/- ===== Fixtures for the OAuth evaluations ===== -/

/-- A complete OAuth configuration with state secret tp-state. -/
def cfgX : OAuthCfg := ⟨"client-1", "secret-1", "tp-state"⟩

/-- An upstream that accepts the single code code-1, authorizing user UX. -/
def exX : String → Exchange := fun c =>
  if c = "code-1" then .ok (some "UX") (some "xoxp-x") (some "T1") none
  else .err

/-- A callback request carrying a valid code but a wrong state value. -/
def reqBadState : OAuthReq := ⟨some "code-1", some "WRONG"⟩

/-- An upstream whose response lacks the authorized-user block. -/
def exNoAuthed : String → Exchange := fun c =>
  if c = "code-2" then .ok none none (some "T1") none else .err

/-- A callback request with the code code-2 and the correct state. -/
def reqGood2 : OAuthReq := ⟨some "code-2", some "tp-state"⟩

/-- A callback request whose code every fixture upstream rejects. -/
def reqRejected : OAuthReq := ⟨some "nope", some "tp-state"⟩

/-- C4: the src/app.js redirect handler, evaluated at a request whose state
differs from the configured shared state secret, still contacts the
upstream provider and writes a CredentialRecord — contradicting the
required reject-before-contact behavior, which the repository variant of
src/unnamed/part_001 implements (rejecting the same request with 400, no
upstream call, store unchanged). -/
theorem oauth_state_ignored_main_handler :
    reqBadState.state ≠ some cfgX.stateSecret ∧
    (oauthRedirectMain cfgX exX reqBadState []).calledUpstream = true ∧
    getStoredToken (oauthRedirectMain cfgX exX reqBadState []).store "UX"
      = some "xoxp-x" ∧
    (oauthRedirectValidated cfgX exX reqBadState []).calledUpstream = false ∧
    (oauthRedirectValidated cfgX exX reqBadState []).store = [] ∧
    (oauthRedirectValidated cfgX exX reqBadState []).status = 400 := by
  decide

/-- C5 counterexample: an exchange whose provider response lacks the
authorized-user block is answered with HTTP 200, which is not in the
400/500 range the claim asserts (the store is still unchanged). -/
theorem oauth_missing_authed_user_status_200 :
    (oauthRedirectMain cfgX exNoAuthed reqGood2 []).status = 200 ∧
    ¬(400 ≤ (oauthRedirectMain cfgX exNoAuthed reqGood2 []).status) ∧
    (oauthRedirectMain cfgX exNoAuthed reqGood2 []).store = [] := by
  decide

/-- C5 (amended): every failing exchange leaves the credential store
unchanged and the handler returns normally, with status 400 for a missing
code, 500 for missing client credentials, 500 for an upstream rejection,
and 200 with the distinguishable no-user-token body — not a 400/500-range
status — for a provider response missing the authorized-user fields. -/
theorem oauth_failure_paths_store_unchanged (cfg : OAuthCfg)
    (ex : String → Exchange) (req : OAuthReq) (st : CredStore) :
    (jsTruthy req.code = false →
      oauthRedirectMain cfg ex req st = ⟨400, false, missingCodeBody, st⟩) ∧
    (jsTruthy req.code = true → (cfg.clientId = "" ∨ cfg.clientSecret = "") →
      oauthRedirectMain cfg ex req st = ⟨500, false, missingEnvBody, st⟩) ∧
    (jsTruthy req.code = true → cfg.clientId ≠ "" → cfg.clientSecret ≠ "" →
      ex (req.code.getD "") = .err →
      oauthRedirectMain cfg ex req st = ⟨500, true, oauthFailedBody, st⟩) ∧
    (∀ uid utok team ent, jsTruthy req.code = true → cfg.clientId ≠ "" →
      cfg.clientSecret ≠ "" → ex (req.code.getD "") = .ok uid utok team ent →
      (jsTruthy uid = false ∨ jsTruthy utok = false) →
      oauthRedirectMain cfg ex req st = ⟨200, true, noUserTokenBody, st⟩) := by
  refine ⟨?_, ?_, ?_, ?_⟩
  · intro h
    unfold oauthRedirectMain
    rw [if_pos h]
  · intro h henv
    unfold oauthRedirectMain
    rw [if_neg (by simp [h]), if_pos henv]
  · intro h h1 h2 hex
    unfold oauthRedirectMain
    rw [if_neg (by simp [h]), if_neg (not_or.mpr ⟨h1, h2⟩), hex]
  · intro uid utok team ent h h1 h2 hex hmiss
    unfold oauthRedirectMain
    rw [if_neg (by simp [h]), if_neg (not_or.mpr ⟨h1, h2⟩), hex]
    dsimp only
    rw [if_pos hmiss]

/-- Witness for the amended C5: a rejected code yields 500 with the store
unchanged, and a response without an authorized-user block yields 200 with
the store unchanged. -/
theorem oauth_failure_paths_store_unchanged_witness :
    oauthRedirectMain cfgX exNoAuthed reqRejected []
      = ⟨500, true, oauthFailedBody, []⟩ ∧
    oauthRedirectMain cfgX exNoAuthed reqGood2 []
      = ⟨200, true, noUserTokenBody, []⟩ :=
  ⟨(oauth_failure_paths_store_unchanged cfgX exNoAuthed reqRejected []).2.2.1
      (by decide) (by decide) (by decide) (by decide),
    (oauth_failure_paths_store_unchanged cfgX exNoAuthed reqGood2 []).2.2.2
      none none (some "T1") none (by decide) (by decide) (by decide) (by decide)
      (Or.inl rfl)⟩

/-- C10: a successful exchange persists a credential record for whatever
authorized-user id the provider returns; the allow-list is never
consulted, so a user that is not a member of the configured allow-list
still gets a delegated token stored in the credential store. -/
theorem oauth_success_saves_without_allowlist_check (cfg : OAuthCfg)
    (ex : String → Exchange) (req : OAuthReq) (st : CredStore)
    (uid utok : String) (team ent : Option String) (raw : String)
    (hcode : jsTruthy req.code = true)
    (h1 : cfg.clientId ≠ "") (h2 : cfg.clientSecret ≠ "")
    (hex : ex (req.code.getD "") = .ok (some uid) (some utok) team ent)
    (huid : uid ≠ "") (hutok : utok ≠ "")
    (_hnonmember : isTeamMember raw uid = false) :
    (oauthRedirectMain cfg ex req st).status = 200 ∧
    (oauthRedirectMain cfg ex req st).store = saveUserToken st uid utok team ent ∧
    getStoredToken (oauthRedirectMain cfg ex req st).store uid = some utok := by
  have hres : oauthRedirectMain cfg ex req st
      = ⟨200, true, successBody uid, saveUserToken st uid utok team ent⟩ := by
    unfold oauthRedirectMain
    rw [if_neg (by simp [hcode]), if_neg (not_or.mpr ⟨h1, h2⟩), hex]
    dsimp only
    have hcond : ¬(jsTruthy (some uid) = false ∨ jsTruthy (some utok) = false) := by
      rintro (h | h) <;>
        simp only [jsTruthy, Bool.not_eq_false', beq_iff_eq] at h
      · exact huid h
      · exact hutok h
    rw [if_neg hcond]
    rfl
  rw [hres]
  refine ⟨rfl, rfl, ?_⟩
  rw [show (⟨200, true, successBody uid,
      saveUserToken st uid utok team ent⟩ : OAuthResult).store
    = saveUserToken st uid utok team ent from rfl]
  rw [getStoredToken_saveUserToken_self, if_neg hutok]

/-- Witness for C10: UX is not on the allow-list U1,U2 but its successful
authorization stores the delegated token. -/
theorem oauth_success_saves_without_allowlist_check_witness :
    isTeamMember "U1,U2" "UX" = false ∧
    getStoredToken
      (oauthRedirectMain cfgX exX ⟨some "code-1", some "tp-state"⟩ []).store "UX"
      = some "xoxp-x" :=
  ⟨by decide,
    (oauth_success_saves_without_allowlist_check cfgX exX
      ⟨some "code-1", some "tp-state"⟩ [] "UX" "xoxp-x" (some "T1") none "U1,U2"
      (by decide) (by decide) (by decide) (by decide) (by decide) (by decide)
      (by decide)).2.2⟩

end TPRM
